import Mathlib

/-!
Verification of the facebook-python-sdk client (`facebook/facebook.py`)
against its natural-language specification.

The development shallowly embeds the cookie-verification routine
`get_user_from_cookie`, the `GraphAPI.request` dispatcher and the write
helpers (`put_object`, `put_wall_post`, `put_comment`, `put_like`,
`put_event`, `delete_object`, `get_page_access_token`) as pure Lean
functions.  Effects are made explicit:

  * the HTTP exchange is a function argument (`respond`, `respondAccounts`,
    `respondPicture`) mapping the outgoing request to the decoded response;
  * the current clock reading (`time.time()`) is an integer argument `now`
    (the code only compares it with the integer `expires` field);
  * the MD5 hex-digest primitive is an abstract argument
    `md5hex : String → String`, since every property below is about the
    control flow around the digest, never about the digest function itself;
  * Python exceptions (`KeyError`, `ValueError`, `AttributeError`,
    `TypeError`, `AssertionError`, `GraphAPIError`) become an `Except` error
    type.

Python 2 semantics are modelled where the code depends on them
(`cgi.parse_qs` splits on both separators, skips pairs with empty values,
percent-decodes with strict two-hex-digit escapes; `str.strip` removes all
leading and trailing occurrences; `int()` accepts surrounding whitespace and
a sign; dictionary access raises `KeyError`, attribute access on non-dicts
raises `AttributeError`).
-/

/-- Decoded JSON values, as produced by `response.json()` /
`_parse_json`.  Numbers are modelled as integers (the fields the client
inspects are identifiers and status-like values). Objects are association
lists with distinct keys. -/
inductive JValue where
  | null
  | bool (b : Bool)
  | num (n : Int)
  | str (s : String)
  | arr (elems : List JValue)
  | obj (fields : List (String × JValue))

/-- First-match association-list lookup (Python dictionary lookup; the
dictionaries built below have distinct keys). -/
def alookup {β : Type} : List (String × β) → String → Option β
  | [], _ => none
  | (k, v) :: rest, key => if k = key then some v else alookup rest key

/-- Python truthiness of a decoded JSON value (`if value:`). -/
def jTruthy : JValue → Bool
  | .null => false
  | .bool b => b
  | .num n => n != 0
  | .str s => s != ""
  | .arr xs => !xs.isEmpty
  | .obj fs => !fs.isEmpty

/-- Python truthiness of an optional string (`if self.access_token:`,
`if id:`): `None` and the empty string are falsy. -/
def oTruthy : Option String → Bool
  | none => false
  | some s => s != ""

/-- The exceptions the embedded code can raise. `graphAPIError` carries the
`type` and `message` values extracted from the error body (absent field =
Python `None`). -/
inductive FbExn where
  | keyError
  | valueError
  | attributeError
  | typeError
  | assertionError
  | graphAPIError (ty : Option JValue) (msg : Option JValue)

/- ### Query-string parsing (`cgi.parse_qs`, Python 2) -/

/-- Hex digit value for `urllib.unquote`'s strict two-hex-digit table. -/
def hexVal (c : Char) : Option Nat :=
  if '0' ≤ c ∧ c ≤ '9' then some (c.toNat - 48)
  else if 'a' ≤ c ∧ c ≤ 'f' then some (c.toNat - 87)
  else if 'A' ≤ c ∧ c ≤ 'F' then some (c.toNat - 55)
  else none

/-- Percent-decoding on character lists: `%xy` with two hex digits becomes
the byte `16*x+y`; any other `%` is kept literally (Python 2
`urllib.unquote`). -/
def unquoteAux : List Char → List Char
  | [] => []
  | '%' :: a :: b :: rest =>
    match hexVal a, hexVal b with
    | some x, some y => Char.ofNat (16 * x + y) :: unquoteAux rest
    | _, _ => '%' :: unquoteAux (a :: b :: rest)
  | '%' :: rest => '%' :: unquoteAux rest
  | c :: rest => c :: unquoteAux rest

/-- `urllib.unquote` on strings. -/
def unquote (s : String) : String := ⟨unquoteAux s.data⟩

/-- `'+'` to space translation applied by `parse_qsl` before unquoting. -/
def plusToSpace (s : String) : String :=
  ⟨s.data.map (fun c => if c = '+' then ' ' else c)⟩

/-- Split a `name=value` field at the first `=` (Python
`name_value.split('=', 1)`); `none` when there is no `=`. -/
def splitFirstEqAux : List Char → Option (List Char × List Char)
  | [] => none
  | c :: rest =>
    if c = '=' then some ([], rest)
    else (splitFirstEqAux rest).map (fun p => (c :: p.1, p.2))

/-- Python `str.split(sep)` with an explicit one-character separator:
splitting the empty string gives one empty field, consecutive separators
give empty fields. -/
def splitOnChar (sep : Char) : List Char → List (List Char)
  | [] => [[]]
  | c :: rest =>
    let r := splitOnChar sep rest
    if c = sep then [] :: r
    else
      match r with
      | [] => [[c]]
      | h :: t => (c :: h) :: t

/-- One field of a query string: skipped when empty, without `=`, or with an
empty value (`keep_blank_values=0`); otherwise both name and value get the
plus/percent decoding. -/
def parsePair (nv : List Char) : Option (String × String) :=
  match nv with
  | [] => none
  | _ =>
    match splitFirstEqAux nv with
    | none => none
    | some (n, v) =>
      if v.isEmpty then none
      else some (unquote (plusToSpace ⟨n⟩), unquote (plusToSpace ⟨v⟩))

/-- `urlparse.parse_qsl` (Python 2): split the query on `&` and `;`, keep
the surviving `name=value` pairs in order. -/
def parse_qsl (qs : String) : List (String × String) :=
  ((splitOnChar '&' qs.data).flatMap (splitOnChar ';')).filterMap parsePair

/-- Append a value to the entry of `k` in a grouped mapping, creating the
entry at the end when absent (`cgi.parse_qs` building its dict of lists). -/
def addPair (k v : String) : List (String × List String) → List (String × List String)
  | [] => [(k, [v])]
  | (k', vs) :: rest =>
    if k' = k then (k', vs ++ [v]) :: rest else (k', vs) :: addPair k v rest

/-- `cgi.parse_qs`: group the parsed pairs into a mapping from each key to
its list of values, in order of appearance. -/
def cgi_parse_qs (qs : String) : List (String × List String) :=
  (parse_qsl qs).foldl (fun acc kv => addPair kv.1 kv.2 acc) []

/- ### Python string helpers -/

/-- `s.strip('"')`: remove every leading and trailing quote character. -/
def pyStripQuotes (s : String) : String :=
  ⟨((s.data.dropWhile (fun c => c = '"')).reverse.dropWhile (fun c => c = '"')).reverse⟩

/-- Whitespace accepted by Python's `int()` around the digits. -/
def pyWhitespace (c : Char) : Bool :=
  c == ' ' || c == '\t' || c == '\n' || c == '\r' || c == '\x0b' || c == '\x0c'

/-- Value of a non-empty all-digit string. -/
def digitsValAux : List Char → Nat → Option Nat
  | [], acc => some acc
  | c :: rest, acc =>
    if c.isDigit then digitsValAux rest (acc * 10 + (c.toNat - 48)) else none

/-- Value of a digit string; `none` when empty or containing a non-digit. -/
def digitsVal (cs : List Char) : Option Nat :=
  if cs.isEmpty then none else digitsValAux cs 0

/-- Python `int(s)` on strings: surrounding whitespace, an optional sign,
then at least one decimal digit; anything else raises `ValueError`
(modelled as `none`). -/
def pyInt (s : String) : Option Int :=
  let t := ((s.data.dropWhile pyWhitespace).reverse.dropWhile pyWhitespace).reverse
  match t with
  | '+' :: rest => (digitsVal rest).map Int.ofNat
  | '-' :: rest => (digitsVal rest).map (fun n => -(Int.ofNat n))
  | rest => (digitsVal rest).map Int.ofNat

/- ### `get_user_from_cookie` (facebook.py lines 465-491) -/

/-- `cookies.get("fbs_" + app_id, "")`. -/
def fbsCookie (cookies : List (String × String)) (app_id : String) : String :=
  (alookup cookies ("fbs_" ++ app_id)).getD ""

/-- `dict((k, v[-1]) for k, v in cgi.parse_qs(cookie.strip('"')).items())`:
the parsed cookie payload, mapping each key to the last value it received. -/
def cookieArgs (cookie : String) : List (String × String) :=
  (cgi_parse_qs (pyStripQuotes cookie)).map (fun kv => (kv.1, kv.2.getLastD ""))

/-- The lexicographic order on strings, phrased on their character lists
(the same order as `≤` on `String`, see `keyLe_iff`, but with a decision
procedure the kernel can evaluate). Python's `sorted` compares strings
exactly this way. -/
def keyLe (a b : String) : Prop := a.data ≤ b.data

instance keyLeDec : DecidableRel keyLe := fun a b =>
  inferInstanceAs (Decidable (a.data ≤ b.data))

/-- The payload keys used for signing: all keys sorted lexicographically,
with `"sig"` removed (`sorted(args.keys())` with the `if k != "sig"`
filter). -/
def payloadKeys (args : List (String × String)) : List String :=
  (List.insertionSort keyLe (args.map Prod.fst)).filter (fun k => k ≠ "sig")

/-- The canonical signing string:
`"".join(k + "=" + args[k] for k in sorted(args.keys()) if k != "sig")`. -/
def signingPayload (args : List (String × String)) : String :=
  String.join ((payloadKeys args).map (fun k => k ++ "=" ++ (alookup args k).getD ""))

/-- The tail of `get_user_from_cookie` once the cookie was parsed:
`expires = int(args["expires"])` (raising `KeyError` / `ValueError`), then
the signature-and-expiry test deciding between the payload and `None`. -/
def checkSigAndExpiry (md5hex : String → String) (now : Int) (app_secret : String)
    (args : List (String × String)) : Except FbExn (Option (List (String × String))) :=
  match alookup args "expires" with
  | none => .error .keyError
  | some es =>
    match pyInt es with
    | none => .error .valueError
    | some expires =>
      if alookup args "sig" = some (md5hex (signingPayload args ++ app_secret))
          ∧ (expires = 0 ∨ now < expires) then
        .ok (some args)
      else
        .ok none

/-- `get_user_from_cookie(cookies, app_id, app_secret)`, with the digest
primitive and the clock as explicit arguments. -/
def get_user_from_cookie (md5hex : String → String) (now : Int)
    (cookies : List (String × String)) (app_id app_secret : String) :
    Except FbExn (Option (List (String × String))) :=
  let cookie := fbsCookie cookies app_id
  if cookie = "" then .ok none
  else checkSigAndExpiry md5hex now app_secret (cookieArgs cookie)

/- ### Generic lemmas about the parsing helpers -/

theorem alookup_append {β : Type} (xs ys : List (String × β)) (k : String) :
    alookup (xs ++ ys) k = (alookup xs k).or (alookup ys k) := by
  induction xs with
  | nil => simp [alookup]
  | cons p rest ih =>
    by_cases h : p.1 = k
    · simp [alookup, h]
    · simp [alookup, h, ih]

theorem head?_dropWhile_char (p : Char → Bool) (l : List Char) (x : Char)
    (h : (l.dropWhile p).head? = some x) : p x = false := by
  induction l with
  | nil => simp [List.dropWhile] at h
  | cons c rest ih =>
    rw [List.dropWhile_cons] at h
    by_cases hc : p c = true
    · exact ih (by simpa [hc] using h)
    · simp [hc] at h
      subst h
      simpa using hc

theorem getLast?_dropWhile_ne_nil (p : Char → Bool) (l : List Char)
    (h : l.dropWhile p ≠ []) : (l.dropWhile p).getLast? = l.getLast? := by
  induction l with
  | nil => simp [List.dropWhile] at h
  | cons c rest ih =>
    rw [List.dropWhile_cons]
    by_cases hc : p c = true
    · rw [List.dropWhile_cons, if_pos hc] at h
      rw [if_pos hc, ih h]
      cases hrest : rest with
      | nil => rw [hrest] at h; simp [List.dropWhile] at h
      | cons d ds => simp [List.getLast?_cons_cons]
    · simp [hc]

/-- The value assigned to key `k` after `addPair k' v'`: the appended value
when the keys agree, the previous one otherwise. -/
theorem alookup_map_addPair (k' v' k : String) (acc : List (String × List String)) :
    alookup ((addPair k' v' acc).map (fun kv => (kv.1, kv.2.getLastD ""))) k
      = if k' = k then some v' else alookup (acc.map (fun kv => (kv.1, kv.2.getLastD ""))) k := by
  induction acc with
  | nil =>
    by_cases h : k' = k <;> simp [addPair, alookup, h]
  | cons q rest ih =>
    by_cases hq : q.1 = k'
    · by_cases h : k' = k
      · subst h
        simp [addPair, hq, alookup, List.getLastD_eq_getLast?, List.getLast?_concat]
      · have : q.1 ≠ k := by rw [hq]; exact h
        simp [addPair, hq, alookup, this, h]
    · by_cases h : q.1 = k
      · have hk : ¬ k' = k := by intro hh; exact hq (by rw [hh, h])
        have hk2 : ¬ k = k' := fun hh => hq (h.trans hh)
        simp [addPair, hq, alookup, h, hk, hk2]
      · simpa [addPair, hq, alookup, h] using ih

/-- Folding query-string pairs into the grouped dictionary and then taking
each key's last value observes exactly the last pair with that key. -/
theorem foldl_addPair_lookup (ps : List (String × String))
    (acc : List (String × List String)) (k : String) :
    alookup ((ps.foldl (fun a kv => addPair kv.1 kv.2 a) acc).map
        (fun kv => (kv.1, kv.2.getLastD ""))) k
      = (alookup ps.reverse k).or
          (alookup (acc.map (fun kv => (kv.1, kv.2.getLastD ""))) k) := by
  induction ps generalizing acc with
  | nil => simp [alookup]
  | cons q rest ih =>
    rw [List.foldl_cons, ih, List.reverse_cons, alookup_append, Option.or_assoc,
      alookup_map_addPair]
    cases halt : alookup rest.reverse k with
    | some v => simp [Option.or]
    | none =>
      by_cases h : q.1 = k <;> simp [alookup, h, Option.or]

/-- `keyLe` is the standard order on strings (Python compares strings
exactly by their character sequences). -/
theorem keyLe_iff (a b : String) : keyLe a b ↔ a ≤ b :=
  String.le_iff_toList_le.symm

instance keyLeTotal : IsTotal String keyLe :=
  ⟨fun a b => le_total a.data b.data⟩

instance keyLeTrans : IsTrans String keyLe :=
  ⟨fun _ _ _ h1 h2 => le_trans h1 h2⟩

/- ### Claims about the cookie verifier -/

/-- Claim C7: the canonical signing string is built from all payload keys
sorted lexicographically with `sig` excluded, concatenating `key=value`
pairs with no separator; in particular for the payload
`{b = 2, a = 1, sig = X}` the canonical string is `"a=1b=2"`. -/
theorem C7_canonical_signing_string (args : List (String × String)) :
    List.Sorted (· ≤ ·) (payloadKeys args)
  ∧ "sig" ∉ payloadKeys args
  ∧ (payloadKeys args).Perm ((args.map Prod.fst).filter (fun k => k ≠ "sig"))
  ∧ signingPayload args
      = String.join ((payloadKeys args).map (fun k => k ++ "=" ++ (alookup args k).getD ""))
  ∧ signingPayload [("b", "2"), ("a", "1"), ("sig", "X")] = "a=1b=2" := by
  refine ⟨?_, ?_, ?_, rfl, by decide⟩
  · have hs : List.Sorted keyLe (List.insertionSort keyLe (args.map Prod.fst)) :=
      List.sorted_insertionSort keyLe _
    have hs2 : List.Sorted keyLe (payloadKeys args) := hs.filter _
    exact hs2.imp (fun h => (keyLe_iff _ _).mp h)
  · simp [payloadKeys, List.mem_filter]
  · exact (List.perm_insertionSort keyLe _).filter _

/-- Witness for C7 at the payload of the claim's example. -/
theorem C7_canonical_signing_string_witness :
    signingPayload [("b", "2"), ("a", "1"), ("sig", "X")] = "a=1b=2" :=
  (C7_canonical_signing_string []).2.2.2.2

/-- Claim C1: when the `fbs_`-prefixed cookie is present (non-empty) and its
payload's `expires` field parses as an integer `e`, `get_user_from_cookie`
returns the parsed last-value-wins payload exactly when the abstract MD5 hex
digest of the canonical signing string concatenated with the application
secret equals the payload's `sig` field and `e` is zero or the current time
is strictly below `e`; in every other such case it returns the absent
result. -/
theorem C1_verify_iff (md5hex : String → String) (now : Int)
    (cookies : List (String × String)) (app_id app_secret : String)
    (es : String) (e : Int)
    (hc : fbsCookie cookies app_id ≠ "")
    (he : alookup (cookieArgs (fbsCookie cookies app_id)) "expires" = some es)
    (hp : pyInt es = some e) :
    get_user_from_cookie md5hex now cookies app_id app_secret =
      if alookup (cookieArgs (fbsCookie cookies app_id)) "sig"
          = some (md5hex (signingPayload (cookieArgs (fbsCookie cookies app_id)) ++ app_secret))
        ∧ (e = 0 ∨ now < e)
      then .ok (some (cookieArgs (fbsCookie cookies app_id)))
      else .ok none := by
  simp only [get_user_from_cookie]
  rw [if_neg hc]
  simp only [checkSigAndExpiry, he, hp]

/-- Witness for C1: a present cookie with matching digest and `expires=0`
yields the payload. -/
theorem C1_verify_iff_witness :
    get_user_from_cookie (fun _ => "S") 5 [("fbs_A", "expires=0&sig=S&uid=1")] "A" "K"
      = .ok (some [("expires", "0"), ("sig", "S"), ("uid", "1")]) := by
  have h := C1_verify_iff (fun _ => "S") 5 [("fbs_A", "expires=0&sig=S&uid=1")] "A" "K"
    "0" 0 (by decide) (by decide) (by decide)
  rw [h]
  rfl

/-- Claim C9: a present cookie whose payload's `expires` value is not a
decimal integer string makes `get_user_from_cookie` raise (`ValueError`)
instead of defaulting the expiry and returning a result. -/
theorem C9_nonint_expires_raises (md5hex : String → String) (now : Int)
    (cookies : List (String × String)) (app_id app_secret : String) (es : String)
    (hc : fbsCookie cookies app_id ≠ "")
    (he : alookup (cookieArgs (fbsCookie cookies app_id)) "expires" = some es)
    (hn : pyInt es = none) :
    get_user_from_cookie md5hex now cookies app_id app_secret = .error .valueError := by
  simp only [get_user_from_cookie]
  rw [if_neg hc]
  simp only [checkSigAndExpiry, he, hn]

/-- Witness for C9 at the cookie payload `expires=abc&sig=S`. -/
theorem C9_nonint_expires_raises_witness :
    get_user_from_cookie (fun _ => "S") 5 [("fbs_A", "expires=abc&sig=S")] "A" "K"
      = .error .valueError :=
  C9_nonint_expires_raises (fun _ => "S") 5 [("fbs_A", "expires=abc&sig=S")] "A" "K"
    "abc" (by decide) (by decide) (by decide)

/-- Claim C10: a present cookie whose payload lacks the `expires` key makes
`get_user_from_cookie` raise (`KeyError`, from the unguarded
`args["expires"]` lookup) even when the signature over the remaining keys is
correct, rather than returning the absent result. -/
theorem C10_missing_expires_raises (md5hex : String → String) (now : Int)
    (cookies : List (String × String)) (app_id app_secret : String)
    (hc : fbsCookie cookies app_id ≠ "")
    (he : alookup (cookieArgs (fbsCookie cookies app_id)) "expires" = none) :
    get_user_from_cookie md5hex now cookies app_id app_secret = .error .keyError := by
  simp only [get_user_from_cookie]
  rw [if_neg hc]
  simp only [checkSigAndExpiry, he]

/-- Witness for C10: payload `sig=X&uid=1` with a digest function that makes
the signature over the remaining keys correct still raises. -/
theorem C10_missing_expires_raises_witness :
    get_user_from_cookie (fun _ => "X") 5 [("fbs_A", "sig=X&uid=1")] "A" "K"
      = .error .keyError :=
  C10_missing_expires_raises (fun _ => "X") 5 [("fbs_A", "sig=X&uid=1")] "A" "K"
    (by decide) (by decide)

/-- Modelled from the claim's words (C8) for comparison only: strip exactly
one layer of surrounding quote characters — one leading and one trailing
quote when the value is wrapped in them. The code itself uses
`pyStripQuotes` (strip all). -/
def stripOneLayer (s : String) : String :=
  match s.data with
  | '"' :: rest => if rest.getLast? = some '"' then ⟨rest.dropLast⟩ else s
  | _ => s

/-- Parsing the cookie the way claim C8 describes it: one quote layer
stripped, then query-string parsed with last-value-wins. -/
def cookieArgsOneLayer (cookie : String) : List (String × String) :=
  (cgi_parse_qs (stripOneLayer cookie)).map (fun kv => (kv.1, kv.2.getLastD ""))

/-- Counterexample to claim C8: on the doubly quoted cookie value
`""a=1""` the code strips BOTH quote layers and parses the payload
`{a = 1}`, while stripping exactly one layer as claimed would leave quote
characters glued to the key and value. -/
theorem C8_counterexample :
    cookieArgs "\"\"a=1\"\"" = [("a", "1")]
  ∧ cookieArgsOneLayer "\"\"a=1\"\"" = [("\"a", "1\"")]
  ∧ cookieArgs "\"\"a=1\"\"" ≠ cookieArgsOneLayer "\"\"a=1\"\"" :=
  ⟨by decide, by decide, by decide⟩

/-- Claim C8 (amended): `get_user_from_cookie` strips ALL surrounding quote
characters (not just one layer) before parsing the value as an
`&`-delimited, `=`-delimited query string, and when a key occurs multiple
times only the last value per key is kept: every lookup in the parsed
payload equals the last matching pair of the parsed query string, and the
stripped value neither starts nor ends with a quote character. -/
theorem C8_strip_and_last_value (cookie : String) (k : String) (c : Char) :
    alookup (cookieArgs cookie) k = alookup (parse_qsl (pyStripQuotes cookie)).reverse k
  ∧ ((pyStripQuotes cookie).data.head? = some c → c ≠ '"')
  ∧ ((pyStripQuotes cookie).data.getLast? = some c → c ≠ '"')
  ∧ cookieArgs "\"\"a=1\"\"" = [("a", "1")] := by
  refine ⟨?_, ?_, ?_, by decide⟩
  · have h := foldl_addPair_lookup (parse_qsl (pyStripQuotes cookie)) [] k
    simpa [cookieArgs, cgi_parse_qs, alookup] using h
  · intro hh
    rw [show (pyStripQuotes cookie).data
        = ((cookie.data.dropWhile (fun c => c = '"')).reverse.dropWhile
            (fun c => c = '"')).reverse from rfl, List.head?_reverse] at hh
    have hne : (cookie.data.dropWhile (fun c => c = '"')).reverse.dropWhile
        (fun c => c = '"') ≠ [] := by
      intro hnil
      rw [hnil] at hh
      simp at hh
    rw [getLast?_dropWhile_ne_nil _ _ hne, List.getLast?_reverse] at hh
    have := head?_dropWhile_char (fun c => c = '"') cookie.data c hh
    simpa using this
  · intro hh
    rw [show (pyStripQuotes cookie).data
        = ((cookie.data.dropWhile (fun c => c = '"')).reverse.dropWhile
            (fun c => c = '"')).reverse from rfl, List.getLast?_reverse] at hh
    have := head?_dropWhile_char (fun c => c = '"')
      (cookie.data.dropWhile (fun c => c = '"')).reverse c hh
    simpa using this

/-- Witness for C8 (amended) at a concrete quoted cookie. -/
theorem C8_strip_and_last_value_witness :
    alookup (cookieArgs "\"x=1&x=2\"") "x" = some "2" ∧ ('x' : Char) ≠ '"' := by
  have h := C8_strip_and_last_value "\"x=1&x=2\"" "x" 'x'
  exact ⟨h.1.trans (by decide), h.2.1 (by decide)⟩

/- ### The `GraphAPI.request` dispatcher (facebook.py lines 291-333) -/

/-- The outgoing HTTP request handed to `self.session.request(...)`:
method, full URL, query parameters and optional form-encoded POST body. -/
structure HttpRequest where
  method : String
  url : String
  params : List (String × String)
  data : Option (List (String × String))

/-- The outcome of the HTTP round trip: either `requests.HTTPError` was
raised (carrying the JSON decoded from `e.read()`), or a response arrived
and `response.json()` decoded to `body`. -/
inductive HttpOutcome where
  | httpError (body : JValue)
  | success (body : JValue)

/-- `self.url`: the fixed host joined with the optional version segment
(`"https://{}/".format(host)` with `host = "graph.facebook.com/"`, hence the
double slash when no version is set; an empty version string is falsy and
treated as unset). -/
def graphURL (version : Option String) : String :=
  if oTruthy version then "https://graph.facebook.com/" ++ version.getD "" ++ "/"
  else "https://graph.facebook.com//"

/-- Python `value.get(key)` on a decoded JSON value: a lookup on objects,
an `AttributeError` on anything else. -/
def jGetOpt (v : JValue) (k : String) : Except FbExn (Option JValue) :=
  match v with
  | .obj fs => .ok (alookup fs k)
  | _ => .error .attributeError

/-- Python `value.get(key, default)` on a decoded JSON value. -/
def jGetD (v : JValue) (k : String) (d : JValue) : Except FbExn JValue :=
  match v with
  | .obj fs => .ok ((alookup fs k).getD d)
  | _ => .error .attributeError

/-- Lines 297-315 of `GraphAPI.request`: default `args` to an empty
mapping, force the method to POST when a POST body is supplied, fall back to
GET when no method is given, and inject the access token — into the POST
body when it is truthy (non-empty) and lacks an `access_token` key,
otherwise into the query parameters when they lack one; an existing
`access_token` entry is never overwritten. -/
def prepareRequest (token : Option String) (base_url path : String)
    (args post_args : Option (List (String × String))) (method : Option String) :
    HttpRequest :=
  let args0 := args.getD []
  let m1 := if post_args.isSome then some "POST" else method
  let methodEff := match m1 with
    | none => "GET"
    | some m => if m = "" then "GET" else m
  let injected :=
    if oTruthy token then
      let t := token.getD ""
      match post_args with
      | some ps =>
        if !ps.isEmpty && (alookup ps "access_token").isNone then
          (args0, some (ps ++ [("access_token", t)]))
        else if (alookup args0 "access_token").isNone then
          (args0 ++ [("access_token", t)], some ps)
        else (args0, some ps)
      | none =>
        if (alookup args0 "access_token").isNone then
          (args0 ++ [("access_token", t)], none)
        else (args0, none)
    else (args0, post_args)
  { method := methodEff, url := base_url ++ path,
    params := injected.1, data := injected.2 }

/-- `GraphAPI.request(path, args, post_args, method)`: issue the prepared
request through `respond`; on `requests.HTTPError` extract `type`/`message`
from the error body (`_parse_json(e.read()) or {}`) and raise
`GraphAPIError`; otherwise decode the body, raise `GraphAPIError` when
`result.get('error')` is truthy (an `AttributeError` when the body is not
an object), and return the body verbatim otherwise. -/
def GraphAPI.request (token : Option String) (base_url : String)
    (respond : HttpRequest → HttpOutcome) (path : String)
    (args post_args : Option (List (String × String))) (method : Option String) :
    Except FbExn JValue :=
  match respond (prepareRequest token base_url path args post_args method) with
  | .httpError body =>
    let er := if jTruthy body then body else .obj []
    match jGetD er "error" (.obj []) with
    | .error e => .error e
    | .ok ev =>
      match jGetOpt ev "type", jGetOpt ev "message" with
      | .ok ty, .ok msg => .error (.graphAPIError ty msg)
      | .error e, _ => .error e
      | _, .error e => .error e
  | .success result =>
    match jGetOpt result "error" with
    | .error e => .error e
    | .ok none => .ok result
    | .ok (some ev) =>
      if jTruthy ev then
        match jGetOpt ev "type", jGetOpt ev "message" with
        | .ok ty, .ok msg => .error (.graphAPIError ty msg)
        | .error e, _ => .error e
        | _, .error e => .error e
      else .ok result

/- ### Graph write helpers (facebook.py lines 122-263) -/

/-- `GraphAPI.put_object`: `assert self.access_token` (an `AssertionError`
when the token is absent or empty), then a POST to
`parent_object/connection_name` with the data as the POST body. -/
def put_object (token : Option String) (base_url : String)
    (respond : HttpRequest → HttpOutcome)
    (parent_object connection_name : String) (data : List (String × String)) :
    Except FbExn JValue :=
  if oTruthy token then
    GraphAPI.request token base_url respond
      (parent_object ++ "/" ++ connection_name) none (some data) (some "POST")
  else .error .assertionError

/-- `GraphAPI.put_wall_post`: delegates to `put_object(profile_id, "feed",
message=message, **attachment)`; a duplicate `message` key in the attachment
is a `TypeError` at call time (duplicate keyword argument). The Python
default `profile_id="me"` is passed explicitly here. -/
def put_wall_post (token : Option String) (base_url : String)
    (respond : HttpRequest → HttpOutcome)
    (message : String) (attachment : List (String × String)) (profile_id : String) :
    Except FbExn JValue :=
  if (alookup attachment "message").isSome then .error .typeError
  else put_object token base_url respond profile_id "feed"
    (("message", message) :: attachment)

/-- `GraphAPI.put_comment`: `put_object(object_id, "comments",
message=message)`. -/
def put_comment (token : Option String) (base_url : String)
    (respond : HttpRequest → HttpOutcome)
    (object_id message : String) : Except FbExn JValue :=
  put_object token base_url respond object_id "comments" [("message", message)]

/-- `GraphAPI.put_like`: `put_object(object_id, "likes")`. -/
def put_like (token : Option String) (base_url : String)
    (respond : HttpRequest → HttpOutcome) (object_id : String) :
    Except FbExn JValue :=
  put_object token base_url respond object_id "likes" []

/-- `GraphAPI.delete_object`: `self.request(id, method='DELETE')` — note:
no access-token assertion. -/
def delete_object (token : Option String) (base_url : String)
    (respond : HttpRequest → HttpOutcome) (id : String) : Except FbExn JValue :=
  GraphAPI.request token base_url respond id none none (some "DELETE")

/-- Python `==` between a decoded JSON value and a string (string equality
on string values, `False` otherwise). -/
def jEqStr (v : JValue) (s : String) : Bool :=
  match v with
  | .str t => t == s
  | _ => false

/-- The `for account in accounts` loop of `get_page_access_token`: keep the
last `access_token` of an account whose `id` equals `page_id`; a non-object
account is a `TypeError` (indexing), a missing key a `KeyError`. -/
def forAccounts (page_id : String) : List JValue → Option JValue →
    Except FbExn (Option JValue)
  | [], acc => .ok acc
  | a :: rest, acc =>
    match a with
    | .obj fs =>
      match alookup fs "id" with
      | none => .error .keyError
      | some idv =>
        if jEqStr idv page_id then
          match alookup fs "access_token" with
          | none => .error .keyError
          | some tv => forAccounts page_id rest (some tv)
        else forAccounts page_id rest acc
    | _ => .error .typeError

/-- `GraphAPI.get_page_access_token(page_id, fb_uid)`: a `requests.get` on
`{url}{fb_uid}/accounts` (modelled by `respondAccounts`, returning the
status code and decoded JSON); on a non-200 status return
`(None, account_data.get('error').get('message'))` (an `AttributeError`
when there is no error object), otherwise scan
`account_data.get('data')` for the page's token (iterating `None` or a
non-list is a `TypeError`; empty dictionaries and strings iterate zero
times). -/
def get_page_access_token (base_url : String) (token : Option String)
    (respondAccounts : String → Option String → Nat × JValue)
    (page_id fb_uid : String) :
    Except FbExn (Option JValue × Option JValue) :=
  let r := respondAccounts (base_url ++ fb_uid ++ "/accounts") token
  let account_data := r.2
  if r.1 ≠ 200 then
    match jGetOpt account_data "error" with
    | .error e => .error e
    | .ok none => .error .attributeError
    | .ok (some ev) =>
      match jGetOpt ev "message" with
      | .error e => .error e
      | .ok m => .ok (none, m)
  else
    match jGetOpt account_data "data" with
    | .error e => .error e
    | .ok accounts =>
      match accounts with
      | some (.arr xs) => (forAccounts page_id xs none).map (fun pat => (pat, none))
      | some (.obj []) => .ok (none, none)
      | some (.str "") => .ok (none, none)
      | _ => .error .typeError

/-- Python `str.format` of a decoded JSON value interpolated into the
picture-upload URL (scalar cases exact; the API's `id` field is a string,
so the compound cases only abstract Python's repr). -/
def pyFormat : JValue → String
  | .str s => s
  | .num n => toString n
  | .bool b => if b then "True" else "False"
  | .null => "None"
  | .arr _ => "[\x2e\x2e\x2e]"
  | .obj _ => "\x7b\x2e\x2e\x2e\x7d"

/-- `response['id']` for a response already known to be an object containing
`id`. -/
def jId : JValue → JValue
  | .obj fs => (alookup fs "id").getD .null
  | _ => .null

/-- Python truthiness of an optional JSON value (`if error_message:`,
`if page_access_token:`): `None` is falsy, otherwise the value's own
truthiness. -/
def ojTruthy : Option JValue → Bool
  | none => false
  | some v => jTruthy v

/-- The picture-upload tail of `put_event` (facebook.py lines 228-251):
build `post_args` with `cover_url` and the page token (or the client token
when the page token is falsy), POST to `{url}{id}/` (modelled by
`respondPicture`, returning status code and decoded JSON) and, on a non-200
status, return the created object together with
`json_response.get('error').get('message')` as the side-channel error
message instead of raising. -/
def uploadPicture (base_url : String) (token : Option String)
    (respondPicture : String → List (String × Option JValue) → Nat × JValue)
    (data : List (String × String)) (response : JValue) (pat : Option JValue) :
    Except FbExn (JValue × Option JValue) :=
  let post_args : List (String × Option JValue) :=
    [("cover_url", some (.str ((alookup data "picture").getD ""))),
     ("access_token", if ojTruthy pat then pat else (token.map .str))]
  let r := respondPicture (base_url ++ pyFormat (jId response) ++ "/") post_args
  if r.1 ≠ 200 then
    match jGetOpt r.2 "error" with
    | .error e => .error e
    | .ok none => .error .attributeError
    | .ok (some ev) =>
      match jGetOpt ev "message" with
      | .error e => .error e
      | .ok m => .ok (response, m)
  else .ok (response, none)

/-- `'picture' in data and isinstance(response, dict) and 'id' in
response`. -/
def picCond (data : List (String × String)) (response : JValue) : Bool :=
  (alookup data "picture").isSome &&
    (match response with
     | .obj fs => (alookup fs "id").isSome
     | _ => false)

/-- `GraphAPI.put_event(id, page_id, fb_uid, **data)` (facebook.py lines
199-251): choose the path from the truthy one of `id` / `page_id`, POST the
data, and when a `picture` was supplied and the response is an object with
an `id`, fetch the page access token when both `page_id` and `fb_uid` are
truthy (returning early with its error message when that is truthy) and
upload the picture, tolerating its failure. Returns the pair
`(response, error_message)`. -/
def put_event (token : Option String) (base_url : String)
    (respond : HttpRequest → HttpOutcome)
    (respondAccounts : String → Option String → Nat × JValue)
    (respondPicture : String → List (String × Option JValue) → Nat × JValue)
    (id page_id fb_uid : Option String) (data : List (String × String)) :
    Except FbExn (JValue × Option JValue) :=
  let path :=
    if oTruthy id then id.getD ""
    else if oTruthy page_id then page_id.getD "" ++ "/events"
    else "me/events"
  match GraphAPI.request token base_url respond path none (some data) (some "POST") with
  | .error e => .error e
  | .ok response =>
    if picCond data response then
      if oTruthy page_id && oTruthy fb_uid then
        match get_page_access_token base_url token respondAccounts
            (page_id.getD "") (fb_uid.getD "") with
        | .error e => .error e
        | .ok (pat, errm) =>
          if ojTruthy errm then .ok (response, errm)
          else uploadPicture base_url token respondPicture data response pat
      else uploadPicture base_url token respondPicture data response none
    else .ok (response, none)

/- ### Claims about the dispatcher and write helpers -/

/-- Claim C2: a 2xx response whose decoded JSON body contains an `error`
object carrying `type` and `message` fields makes `GraphAPI.request` raise
a `GraphAPIError` with exactly that type and message, never returning the
body as data. -/
theorem C2_error_object_raises (token : Option String) (base_url path : String)
    (args post_args : Option (List (String × String))) (method : Option String)
    (respond : HttpRequest → HttpOutcome) (bfs efs : List (String × JValue))
    (t m : JValue)
    (hresp : respond (prepareRequest token base_url path args post_args method)
        = .success (.obj bfs))
    (herr : alookup bfs "error" = some (.obj efs))
    (ht : alookup efs "type" = some t)
    (hm : alookup efs "message" = some m) :
    GraphAPI.request token base_url respond path args post_args method
      = .error (.graphAPIError (some t) (some m)) := by
  obtain ⟨p, efs', rfl⟩ : ∃ p l, efs = p :: l := by
    cases efs with
    | nil => simp [alookup] at ht
    | cons p l => exact ⟨p, l, rfl⟩
  simp only [GraphAPI.request, hresp, jGetOpt, herr, jTruthy, List.isEmpty_cons,
    Bool.not_false, if_true, ht, hm]

/-- Witness for C2 at the body of the claim's example. -/
theorem C2_error_object_raises_witness :
    GraphAPI.request none "https://graph.facebook.com//"
        (fun _ => .success (.obj [("error",
          .obj [("type", .str "T"), ("message", .str "M")])])) "me" none none none
      = .error (.graphAPIError (some (.str "T")) (some (.str "M"))) :=
  C2_error_object_raises none "https://graph.facebook.com//" "me" none none none
    (fun _ => .success (.obj [("error",
      .obj [("type", .str "T"), ("message", .str "M")])]))
    [("error", .obj [("type", .str "T"), ("message", .str "M")])]
    [("type", .str "T"), ("message", .str "M")]
    (.str "T") (.str "M") rfl rfl rfl rfl

/-- Counterexample to claim C3: a 2xx response whose decoded JSON body is a
plain array is NOT returned verbatim — `result.get('error')` is attribute
access on a list, so the call raises an `AttributeError`. -/
theorem C3_counterexample :
    GraphAPI.request none "https://graph.facebook.com//"
        (fun _ => .success (.arr [.num 1])) "me" none none none
      = .error .attributeError
  ∧ GraphAPI.request none "https://graph.facebook.com//"
        (fun _ => .success (.arr [.num 1])) "me" none none none
      ≠ .ok (.arr [.num 1]) :=
  ⟨rfl, fun h => nomatch h⟩

/-- Claim C3 (amended): a 2xx response whose decoded JSON body is an object
with no `error` key is returned verbatim; a plain-array (or other
non-object) body instead raises an `AttributeError`, because the method
calls `.get` on the decoded body unconditionally. -/
theorem C3_plain_object_returned (token : Option String) (base_url path : String)
    (args post_args : Option (List (String × String))) (method : Option String)
    (respond : HttpRequest → HttpOutcome) (bfs : List (String × JValue))
    (hresp : respond (prepareRequest token base_url path args post_args method)
        = .success (.obj bfs))
    (hne : alookup bfs "error" = none) :
    GraphAPI.request token base_url respond path args post_args method
      = .ok (.obj bfs) := by
  simp only [GraphAPI.request, hresp, jGetOpt, hne]

/-- Witness for C3 (amended) at a plain object body. -/
theorem C3_plain_object_returned_witness :
    GraphAPI.request none "https://graph.facebook.com//"
        (fun _ => .success (.obj [("a", .num 1)])) "me" none none none
      = .ok (.obj [("a", .num 1)]) :=
  C3_plain_object_returned none "https://graph.facebook.com//" "me" none none none
    (fun _ => .success (.obj [("a", .num 1)])) [("a", .num 1)] rfl rfl

/-- Counterexample to claim C4: `delete_object` — one of the write
operations the claim lists — performs NO access-token check: with no token
configured it still issues the network request and returns the network's
response instead of failing with a caller-input error first. -/
theorem C4_counterexample :
    delete_object none "https://graph.facebook.com//"
        (fun _ => .success (.obj [("success", .bool true)])) "123"
      = .ok (.obj [("success", .bool true)])
  ∧ delete_object none "https://graph.facebook.com//"
        (fun _ => .success (.obj [("success", .bool true)])) "123"
      ≠ .error .assertionError :=
  ⟨rfl, fun h => nomatch h⟩

/-- Claim C4 (amended): among the write operations, `put_object`,
`put_wall_post`, `put_comment` and `put_like` invoked with an absent access
token fail with an `AssertionError` (a caller-input error) before any
network request is issued — the result is the same for every responder
`respond`; `put_event` and `delete_object` perform no such check. -/
theorem C4_no_token_write_asserts (base_url : String)
    (respond : HttpRequest → HttpOutcome)
    (parent_object connection_name object_id profile_id message : String)
    (data attachment : List (String × String))
    (hatt : alookup attachment "message" = none) :
    put_object none base_url respond parent_object connection_name data
        = .error .assertionError
  ∧ put_wall_post none base_url respond message attachment profile_id
        = .error .assertionError
  ∧ put_comment none base_url respond object_id message = .error .assertionError
  ∧ put_like none base_url respond object_id = .error .assertionError := by
  refine ⟨rfl, ?_, rfl, rfl⟩
  simp [put_wall_post, hatt, put_object, oTruthy]

/-- Witness for C4 (amended) at a wall post with a non-conflicting
attachment. -/
theorem C4_no_token_write_asserts_witness :
    put_wall_post none "https://graph.facebook.com//" (fun _ => .success .null)
        "hello" [("name", "n")] "me"
      = .error .assertionError :=
  (C4_no_token_write_asserts "https://graph.facebook.com//"
    (fun _ => .success .null) "p" "c" "o" "me" "hello" []
    [("name", "n")] (by decide)).2.1

/-- Claim C5: with a configured (truthy) access token, `GraphAPI.request`
injects the token into the POST body exactly when that body is present
(non-empty, per Python truthiness) and lacks an `access_token` key, leaving
the query parameters untouched; otherwise the POST body passes through
unchanged and the token is injected into the query parameters unless they
already carry an `access_token`, which is never overwritten. -/
theorem C5_token_injection (t : String) (base_url path : String)
    (args post_args : Option (List (String × String))) (method : Option String)
    (ht : t ≠ "") :
    ((!(post_args.getD []).isEmpty) = true →
        alookup (post_args.getD []) "access_token" = none →
        (prepareRequest (some t) base_url path args post_args method).data
            = some ((post_args.getD []) ++ [("access_token", t)])
      ∧ (prepareRequest (some t) base_url path args post_args method).params
            = args.getD [])
  ∧ (((post_args.getD []).isEmpty = true
        ∨ (alookup (post_args.getD []) "access_token").isSome) →
        (prepareRequest (some t) base_url path args post_args method).data = post_args
      ∧ (alookup (args.getD []) "access_token" = none →
          (prepareRequest (some t) base_url path args post_args method).params
            = args.getD [] ++ [("access_token", t)])
      ∧ ((alookup (args.getD []) "access_token").isSome →
          (prepareRequest (some t) base_url path args post_args method).params
            = args.getD [])) := by
  have htb : oTruthy (some t) = true := by simp [oTruthy, bne_iff_ne, ht]
  cases post_args with
  | none =>
    refine ⟨fun h1 _ => ?_, fun _ => ⟨?_, fun ha => ?_, fun ha => ?_⟩⟩
    · simp at h1
    · simp [prepareRequest, htb]
      try (split <;> rfl)
    · simp [prepareRequest, htb, ha]
    · obtain ⟨v, hv⟩ := Option.isSome_iff_exists.mp ha
      simp [prepareRequest, htb, hv]
  | some ps =>
    refine ⟨fun h1 h2 => ?_, fun hdisj => ?_⟩
    · have h1' : ps.isEmpty = false := by simpa using h1
      have h2' : alookup ps "access_token" = none := by simpa using h2
      constructor
      · simp [prepareRequest, htb, h1', h2']
      · simp [prepareRequest, htb, h1', h2']
    · have hcondP : ¬ (¬ ps = [] ∧ alookup ps "access_token" = none) := by
        rcases hdisj with h | h
        · intro hand
          exact hand.1 (List.isEmpty_iff.mp (by simpa using h))
        · intro hand
          have h' : (alookup ps "access_token").isSome = true := by simpa using h
          rw [hand.2] at h'
          simp at h'
      refine ⟨?_, fun ha => ?_, fun ha => ?_⟩
      · simp [prepareRequest, htb, hcondP]
        try (split <;> rfl)
      · simp [prepareRequest, htb, hcondP, ha]
      · obtain ⟨v, hv⟩ := Option.isSome_iff_exists.mp ha
        simp [prepareRequest, htb, hcondP, hv]

/-- Witness for C5: a POST body without a token receives it; the query
parameters stay untouched. -/
theorem C5_token_injection_witness :
    (prepareRequest (some "T") "https://graph.facebook.com//" "p"
        (some [("a", "1")]) (some [("x", "y")]) none).data
      = some [("x", "y"), ("access_token", "T")]
  ∧ (prepareRequest (some "T") "https://graph.facebook.com//" "p"
        (some [("a", "1")]) (some [("x", "y")]) none).params
      = [("a", "1")] := by
  have h := C5_token_injection "T" "https://graph.facebook.com//" "p"
    (some [("a", "1")]) (some [("x", "y")]) none (by decide)
  exact h.1 (by decide) (by decide)

/-- Claim C6: a `put_event` call with a `picture` parameter whose primary
object creation succeeds (the response is an object with an `id` and no
`error`) but whose picture upload fails (non-200 status with an error
message in the body) returns the successfully created object together with
the side-channel error message instead of failing the whole call. -/
theorem C6_event_picture_partial_failure (token : Option String) (base_url : String)
    (respond : HttpRequest → HttpOutcome)
    (respondAccounts : String → Option String → Nat × JValue)
    (respondPicture : String → List (String × Option JValue) → Nat × JValue)
    (i : String) (data : List (String × String)) (pic : String)
    (bfs pfs efs : List (String × JValue)) (idv m : JValue) (s : Nat)
    (hpic : alookup data "picture" = some pic)
    (hresp : ∀ r, respond r = .success (.obj bfs))
    (hne : alookup bfs "error" = none)
    (hid : alookup bfs "id" = some idv)
    (hpr : ∀ u a, respondPicture u a = (s, .obj pfs))
    (hs : s ≠ 200)
    (hperr : alookup pfs "error" = some (.obj efs))
    (hpmsg : alookup efs "message" = some m) :
    put_event token base_url respond respondAccounts respondPicture
        (some i) none none data
      = .ok (.obj bfs, some m) := by
  simp only [put_event, GraphAPI.request, hresp, jGetOpt, hne, picCond, hpic,
    hid, Option.isSome_some, Bool.true_and, oTruthy, Bool.and_self, if_true,
    uploadPicture, hpr, hs, hperr, hpmsg]
  simp [hs]

/-- Witness for C6: an event creation that succeeds followed by a failed
picture upload yields the created object and the upload's error message. -/
theorem C6_event_picture_partial_failure_witness :
    put_event (some "T") "https://graph.facebook.com//"
        (fun _ => .success (.obj [("id", .str "7")]))
        (fun _ _ => (200, .null))
        (fun _ _ => (500, .obj [("error", .obj [("message", .str "bad pic")])]))
        (some "9") none none [("picture", "http://x")]
      = .ok (.obj [("id", .str "7")], some (.str "bad pic")) :=
  C6_event_picture_partial_failure (some "T") "https://graph.facebook.com//"
    (fun _ => .success (.obj [("id", .str "7")]))
    (fun _ _ => (200, .null))
    (fun _ _ => (500, .obj [("error", .obj [("message", .str "bad pic")])]))
    "9" [("picture", "http://x")] "http://x"
    [("id", .str "7")] [("error", .obj [("message", .str "bad pic")])]
    [("message", .str "bad pic")] (.str "7") (.str "bad pic") 500
    rfl (fun _ => rfl) rfl rfl (fun _ _ => rfl) (by decide) rfl rfl
